import Mathlib

/-!
Shallow embedding of the pomodoro-clock extension sources.

The embedding covers the two stateful components the spec calls the core:
the `PomodoroTimer` state machine (src/src/notification.ts, second file:
class `PomodoroTimer`) and the `DataManager` history recorder
(src/src/data.ts).  External effects (the key-value store, the appended
record log, and the notifications fired) are modelled as explicit fields
of a `Sys` state threaded through every operation.  `Date.now()` is
modelled by an explicit `now : Int` argument; the host `setInterval`
callback is modelled by the `tick` function, with `intervalActive`
standing for `intervalId !== null`.
-/

namespace Pomodoro

/-- TimerState enum from the source (idle/working/shortBreak/longBreak/paused). -/
inductive TimerState
  | idle
  | working
  | shortBreak
  | longBreak
  | paused
deriving DecidableEq, Repr

/-- TimerConfig interface from the source. -/
structure TimerConfig where
  workDuration : Nat
  shortBreakDuration : Nat
  longBreakDuration : Nat
  longBreakInterval : Nat
  enableSound : Bool
  enableNotification : Bool
deriving DecidableEq, Repr

/-- Raw contents of the host configuration surface: `config.get(key)` returns
the stored value or `undefined`, modelled as `Option`. -/
structure RawSettings where
  workDuration : Option Nat
  shortBreakDuration : Option Nat
  longBreakDuration : Option Nat
  longBreakInterval : Option Nat
  enableSound : Option Bool
  enableNotification : Option Bool
deriving DecidableEq, Repr

/-- JavaScript `x || d` on a numeric setting: `undefined` and `0` are falsy
and yield the default `d`. -/
def jsOrNum (v : Option Nat) (d : Nat) : Nat :=
  match v with
  | none => d
  | some 0 => d
  | some (Nat.succ n) => Nat.succ n

/-- JavaScript `config.get(key) !== false`. -/
def jsNotFalse (v : Option Bool) : Bool :=
  v ≠ some false

/-- PomodoroTimer.getConfig: reads the configuration surface, applying the
`|| default` fallbacks of the source. -/
def getConfig (raw : RawSettings) : TimerConfig :=
  { workDuration := jsOrNum raw.workDuration 25
    shortBreakDuration := jsOrNum raw.shortBreakDuration 5
    longBreakDuration := jsOrNum raw.longBreakDuration 15
    longBreakInterval := jsOrNum raw.longBreakInterval 4
    enableSound := jsNotFalse raw.enableSound
    enableNotification := jsNotFalse raw.enableNotification }

/-- PomodoroRecord from data.ts.  The TypeScript interface declares
`startTime : number`, but the timer records `this.startTime!`, whose runtime
value is `null` when the field was never set (the non-null assertion is
erased at runtime), so the embedded field is an `Option`. -/
structure PomodoroRecord where
  startTime : Option Int
  endTime : Int
  duration : Nat
  completed : Bool
deriving DecidableEq, Repr

/-- TimerStateData (the persisted TimerSnapshot) from data.ts: exactly the
six fields the source declares. -/
structure TimerStateData where
  state : TimerState
  remainingTime : Int
  totalDuration : Nat
  completedPomodoros : Nat
  consecutivePomodoros : Nat
  timestamp : Int
deriving DecidableEq, Repr

/-- Observable notifications fired by the timer: NotificationManager's
notifyWorkEnd and notifyBreakEnd, and direct informational messages. -/
inductive Note
  | workEnd
  | breakEnd
  | info (msg : String)
deriving DecidableEq, Repr

/-- Mutable fields of the PomodoroTimer class, with their constructor
defaults.  `intervalActive` models `intervalId !== null`. -/
structure PomodoroTimer where
  state : TimerState := TimerState.idle
  remainingTime : Int := 0
  totalDuration : Nat := 0
  intervalActive : Bool := false
  completedPomodoros : Nat := 0
  consecutivePomodoros : Nat := 0
  startTime : Option Int := none
  pauseTime : Option Int := none
  previousState : TimerState := TimerState.idle
deriving DecidableEq, Repr

/-- Whole-system state: the timer object plus the externally observable
world (the record log and timer snapshot held by the key-value store, and
the ordered list of notifications fired so far). -/
structure Sys where
  timer : PomodoroTimer
  records : List PomodoroRecord := []
  savedState : Option TimerStateData := none
  notes : List Note := []
deriving DecidableEq, Repr

/-- Append one fired notification. -/
def pushNote (n : Note) (s : Sys) : Sys :=
  { s with notes := s.notes ++ [n] }

/-- PomodoroTimer.saveState: writes the snapshot only when state is non-idle. -/
def saveState (now : Int) (s : Sys) : Sys :=
  if s.timer.state ≠ TimerState.idle then
    let d : TimerStateData :=
      { state := s.timer.state
        remainingTime := s.timer.remainingTime
        totalDuration := s.timer.totalDuration
        completedPomodoros := s.timer.completedPomodoros
        consecutivePomodoros := s.timer.consecutivePomodoros
        timestamp := now }
    { s with savedState := some d }
  else s

/-- PomodoroTimer.updateStatusBar: pushes derived text to the status surface
(pure display, not modelled) and calls saveState. -/
def updateStatusBar (now : Int) (s : Sys) : Sys :=
  saveState now s

/-- PomodoroTimer.stopTimer: clears the scheduled countdown callback. -/
def stopTimer (s : Sys) : Sys :=
  { s with timer := { s.timer with intervalActive := false } }

/-- PomodoroTimer.startTimer: stops any previous countdown and schedules a
new repeating one-second callback. -/
def startTimer (s : Sys) : Sys :=
  let s := stopTimer s
  { s with timer := { s.timer with intervalActive := true } }

/-- PomodoroTimer.resetTimer: full reset to idle followed by saveState. -/
def resetTimer (now : Int) (s : Sys) : Sys :=
  let s := { s with timer := { s.timer with
      state := TimerState.idle
      remainingTime := 0
      totalDuration := 0
      startTime := none
      pauseTime := none
      previousState := TimerState.idle } }
  saveState now s

/-- PomodoroTimer.startBreak: chooses the long break when
`consecutivePomodoros >= longBreakInterval`, then starts the break countdown. -/
def startBreak (cfg : TimerConfig) (now : Int) (s : Sys) : Sys :=
  let s := stopTimer s
  let isLongBreak := s.timer.consecutivePomodoros ≥ cfg.longBreakInterval
  let s :=
    if isLongBreak then
      pushNote (Note.info s!"开始长休息 ({cfg.longBreakDuration}分钟)")
        { s with timer := { s.timer with
            totalDuration := cfg.longBreakDuration * 60
            state := TimerState.longBreak } }
    else
      pushNote (Note.info s!"开始短休息 ({cfg.shortBreakDuration}分钟)")
        { s with timer := { s.timer with
            totalDuration := cfg.shortBreakDuration * 60
            state := TimerState.shortBreak } }
  let s := { s with timer := { s.timer with
      remainingTime := (s.timer.totalDuration : Int)
      startTime := some now } }
  let s := startTimer s
  updateStatusBar now s

/-- PomodoroTimer.handleTimerEnd: the completion transition for the current
state; a completed work interval is recorded and a break started, a finished
break resets the machine to idle. -/
def handleTimerEnd (cfg : TimerConfig) (now : Int) (s : Sys) : Sys :=
  let s := stopTimer s
  let s :=
    if s.timer.state = TimerState.working then
      let s := { s with timer := { s.timer with
          completedPomodoros := s.timer.completedPomodoros + 1
          consecutivePomodoros := s.timer.consecutivePomodoros + 1 } }
      let r : PomodoroRecord :=
        { startTime := s.timer.startTime
          endTime := now
          duration := cfg.workDuration
          completed := true }
      let s := { s with records := s.records ++ [r] }
      let s := pushNote Note.workEnd s
      startBreak cfg now s
    else if s.timer.state = TimerState.shortBreak ∨ s.timer.state = TimerState.longBreak then
      let s := pushNote Note.breakEnd s
      let s :=
        if s.timer.state = TimerState.longBreak then
          { s with timer := { s.timer with consecutivePomodoros := 0 } }
        else s
      let s := resetTimer now s
      pushNote (Note.info "休息结束，准备开始下一个番茄吧！") s
    else s
  updateStatusBar now s

/-- One firing of the `setInterval` countdown callback: decrement, then
either fire the completion transition or re-render the status bar.  The
callback only exists while a countdown is scheduled. -/
def tick (cfg : TimerConfig) (now : Int) (s : Sys) : Sys :=
  if s.timer.intervalActive then
    let s := { s with timer := { s.timer with
        remainingTime := s.timer.remainingTime - 1 } }
    if s.timer.remainingTime ≤ 0 then
      handleTimerEnd cfg now s
    else
      updateStatusBar now s
  else s

/-- A sequence of countdown callback firings at the given wall-clock times. -/
def ticks (cfg : TimerConfig) (ts : List Int) (s : Sys) : Sys :=
  List.foldl (fun s t => tick cfg t s) s ts

/-- PomodoroTimer.startWork. -/
def startWork (cfg : TimerConfig) (now : Int) (s : Sys) : Sys :=
  if s.timer.state = TimerState.working then
    pushNote (Note.info "番茄时钟已经在工作中") s
  else
    let s := stopTimer s
    let s := { s with timer := { s.timer with
        totalDuration := cfg.workDuration * 60
        remainingTime := (cfg.workDuration * 60 : Nat)
        state := TimerState.working
        startTime := some now } }
    let s := startTimer s
    let s := updateStatusBar now s
    pushNote (Note.info s!"开始工作番茄 ({cfg.workDuration}分钟)") s

/-- JavaScript falsiness of the nullable `pauseTime` field (`!this.pauseTime`
is true for both `null` and `0`). -/
def jsFalsyTime (v : Option Int) : Bool :=
  match v with
  | none => true
  | some t => t = 0

/-- PomodoroTimer.pause. -/
def pause (now : Int) (s : Sys) : Sys :=
  if s.timer.state ≠ TimerState.working ∧ s.timer.state ≠ TimerState.shortBreak
      ∧ s.timer.state ≠ TimerState.longBreak then
    pushNote (Note.info "当前状态无法暂停") s
  else
    let s := stopTimer s
    let s := { s with timer := { s.timer with
        previousState := s.timer.state
        pauseTime := some now
        state := TimerState.paused } }
    let s := updateStatusBar now s
    pushNote (Note.info "番茄时钟已暂停") s

/-- PomodoroTimer.resume. -/
def resume (now : Int) (s : Sys) : Sys :=
  if s.timer.state ≠ TimerState.paused then
    pushNote (Note.info "当前状态无法继续") s
  else if jsFalsyTime s.timer.pauseTime then
    pushNote (Note.info "无法继续，暂停时间信息丢失") s
  else
    let s := { s with timer := { s.timer with
        state := s.timer.previousState
        pauseTime := none } }
    let s := startTimer s
    let s := updateStatusBar now s
    pushNote (Note.info "番茄时钟已继续") s

/-- PomodoroTimer.cancel. -/
def cancel (now : Int) (s : Sys) : Sys :=
  if s.timer.state = TimerState.idle then
    pushNote (Note.info "番茄时钟当前为空闲状态") s
  else
    let s := stopTimer s
    let s :=
      if s.timer.state = TimerState.working then
        { s with timer := { s.timer with consecutivePomodoros := 0 } }
      else s
    let s := resetTimer now s
    let s := updateStatusBar now s
    pushNote (Note.info "番茄时钟已取消") s

/-- PomodoroTimer.restoreState: reads back the persisted snapshot; for a
running (non-idle, non-paused) snapshot it reconstructs the elapsed time
and either resumes the countdown or fires the completion transition. -/
def restoreState (cfg : TimerConfig) (now : Int) (s : Sys) : Sys :=
  match s.savedState with
  | none => s
  | some sv =>
    let s := { s with timer := { s.timer with
        state := sv.state
        remainingTime := sv.remainingTime
        totalDuration := sv.totalDuration
        completedPomodoros := sv.completedPomodoros
        consecutivePomodoros := sv.consecutivePomodoros } }
    let s :=
      if s.timer.state = TimerState.working ∨ s.timer.state = TimerState.shortBreak
          ∨ s.timer.state = TimerState.longBreak then
        let elapsed := Int.fdiv (now - sv.timestamp) 1000
        let s := { s with timer := { s.timer with
            remainingTime := max 0 (s.timer.remainingTime - elapsed) } }
        if s.timer.remainingTime > 0 then
          startTimer s
        else
          handleTimerEnd cfg now s
      else s
    updateStatusBar now s

/-- JavaScript reading of `record.startTime` as a number: a `null` start
time coerces to `0` in comparisons and in `new Date(record.startTime)`. -/
def startMs (r : PomodoroRecord) : Int :=
  r.startTime.getD 0

/-- Milliseconds per day, as in `24 * 60 * 60 * 1000`. -/
def msPerDay : Int := 24 * 60 * 60 * 1000

/-- The filter used by DataManager.getTodayData and getLast7DaysData:
completed records whose start time falls in the day window. -/
def dayRecords (dayStart : Int) (records : List PomodoroRecord) : List PomodoroRecord :=
  records.filter fun r =>
    decide (dayStart ≤ startMs r) && decide (startMs r < dayStart + msPerDay) && r.completed

/-- TodayData interface from data.ts. -/
structure TodayData where
  completedPomodoros : Nat
  totalWorkTime : Nat
deriving DecidableEq, Repr

/-- DataManager.getTodayData, with today's local midnight passed explicitly
(the source computes it from `new Date()`). -/
def getTodayData (todayStart : Int) (records : List PomodoroRecord) : TodayData :=
  let todayRecords := dayRecords todayStart records
  { completedPomodoros := todayRecords.length
    totalWorkTime := List.foldl (fun total r => total + r.duration) 0 todayRecords }

/-- One entry of DataManager.getLast7DaysData's result. -/
structure DayStat where
  date : String
  completed : Nat
  workTime : Nat
deriving DecidableEq, Repr

/-- DataManager.getLast7DaysData.  The source loops `i` from 6 down to 0 and
takes the local midnight of the day `i` days before today; local midnights
are modelled as `todayStart - i * msPerDay` (uniform 24-hour days), and the
locale date label `toLocaleDateString` as an abstract rendering `fmtDate`
of the day start. -/
def getLast7DaysData (fmtDate : Int → String) (todayStart : Int)
    (records : List PomodoroRecord) : List DayStat :=
  (List.range 7).map fun j =>
    let i : Nat := 6 - j
    let dateStart : Int := todayStart - (i : Int) * msPerDay
    let dayRecs := dayRecords dateStart records
    { date := fmtDate dateStart
      completed := dayRecs.length
      workTime := List.foldl (fun total r => total + r.duration) 0 dayRecs }

/-- One data row of DataManager.exportToCSV without its terminating newline:
`start,end,duration,status` where the two timestamps are rendered by the
locale formatter `fmt` (abstract here, as `toLocaleString` is host-locale
dependent). -/
def csvRowBody (fmt : Int → String) (r : PomodoroRecord) : String :=
  fmt (startMs r) ++ "," ++ fmt r.endTime ++ "," ++ toString r.duration ++ ","
    ++ (if r.completed then "完成" else "取消")

/-- One data row of DataManager.exportToCSV, newline-terminated as in the
source template string. -/
def csvRow (fmt : Int → String) (r : PomodoroRecord) : String :=
  csvRowBody fmt r ++ "\n"

/-- Header line of the export, without its terminating newline. -/
def csvHeaderBody : String := "开始时间,结束时间,时长(分钟),状态"

/-- DataManager.exportToCSV: header line then one appended line per record. -/
def exportToCSV (fmt : Int → String) (records : List PomodoroRecord) : String :=
  List.foldl (fun csv r => csv ++ csvRow fmt r) (csvHeaderBody ++ "\n") records

/-- Splits a character stream at every newline, keeping every fragment (the
semantics of splitting a string on the newline character). -/
def splitNL : List Char → List (List Char)
  | [] => [[]]
  | c :: cs =>
    if c = '\n' then [] :: splitNL cs
    else
      match splitNL cs with
      | [] => [[c]]
      | r :: rs => (c :: r) :: rs

/-! Shared helper lemmas about the timer operations. -/

/-- Writing the snapshot twice at the same instant is the same as writing it
once: saveState leaves the timer untouched, so the second write stores the
same snapshot. -/
theorem saveState_saveState (now : Int) (s : Sys) :
    saveState now (saveState now s) = saveState now s := by
  by_cases h : s.timer.state = TimerState.idle <;> simp [saveState, h]

/-- handleTimerEnd already ends in updateStatusBar, so a further
updateStatusBar at the same instant changes nothing. -/
theorem updateStatusBar_handleTimerEnd (cfg : TimerConfig) (now : Int) (s : Sys) :
    updateStatusBar now (handleTimerEnd cfg now s) = handleTimerEnd cfg now s := by
  simp only [handleTimerEnd, updateStatusBar]
  exact saveState_saveState now _

/-- Effect of the completion transition from the Working state. -/
theorem handleTimerEnd_working_aux (cfg : TimerConfig) (now : Int) (s : Sys)
    (h : s.timer.state = TimerState.working) :
    (handleTimerEnd cfg now s).timer.completedPomodoros = s.timer.completedPomodoros + 1 ∧
    (handleTimerEnd cfg now s).timer.consecutivePomodoros = s.timer.consecutivePomodoros + 1 ∧
    (handleTimerEnd cfg now s).records = s.records ++
      [{ startTime := s.timer.startTime, endTime := now,
         duration := cfg.workDuration, completed := true }] ∧
    (handleTimerEnd cfg now s).timer.state =
      (if s.timer.consecutivePomodoros + 1 ≥ cfg.longBreakInterval then TimerState.longBreak
       else TimerState.shortBreak) ∧
    (handleTimerEnd cfg now s).timer.remainingTime =
      (if s.timer.consecutivePomodoros + 1 ≥ cfg.longBreakInterval then
        ((cfg.longBreakDuration * 60 : Nat) : Int)
       else ((cfg.shortBreakDuration * 60 : Nat) : Int)) ∧
    (handleTimerEnd cfg now s).timer.intervalActive = true ∧
    (handleTimerEnd cfg now s).timer.startTime = some now ∧
    (∃ m, (handleTimerEnd cfg now s).notes = s.notes ++ [Note.workEnd, Note.info m]) := by
  by_cases hl : s.timer.consecutivePomodoros + 1 ≥ cfg.longBreakInterval <;>
    simp [handleTimerEnd, startBreak, stopTimer, startTimer, updateStatusBar, saveState,
      pushNote, h, hl]

/-- Effect of the completion transition from a break state: no record is
appended, the snapshot in the store is untouched, and the machine is reset
directly to Idle. -/
theorem handleTimerEnd_break_aux (cfg : TimerConfig) (now : Int) (s : Sys)
    (h : s.timer.state = TimerState.shortBreak ∨ s.timer.state = TimerState.longBreak) :
    (handleTimerEnd cfg now s).timer.state = TimerState.idle ∧
    (handleTimerEnd cfg now s).records = s.records ∧
    (handleTimerEnd cfg now s).savedState = s.savedState ∧
    (handleTimerEnd cfg now s).timer.consecutivePomodoros =
      (if s.timer.state = TimerState.longBreak then 0 else s.timer.consecutivePomodoros) ∧
    (handleTimerEnd cfg now s).notes =
      s.notes ++ [Note.breakEnd, Note.info "休息结束，准备开始下一个番茄吧！"] := by
  rcases h with h | h <;>
    simp [handleTimerEnd, resetTimer, stopTimer, updateStatusBar, saveState, pushNote, h]

/-- A countdown callback firing with more than one second left only
decrements and re-renders. -/
theorem tick_decrement_aux (cfg : TimerConfig) (t : Int) (s : Sys)
    (ha : s.timer.intervalActive = true) (hr : 1 < s.timer.remainingTime) :
    tick cfg t s =
      updateStatusBar t { s with timer := { s.timer with
        remainingTime := s.timer.remainingTime - 1 } } := by
  have h2 : ¬ (s.timer.remainingTime - 1 ≤ 0) := by omega
  simp [tick, ha, h2]

/-- A countdown callback firing with at most one second left fires the
completion transition. -/
theorem tick_complete_aux (cfg : TimerConfig) (t : Int) (s : Sys)
    (ha : s.timer.intervalActive = true) (hr : s.timer.remainingTime ≤ 1) :
    tick cfg t s =
      handleTimerEnd cfg t { s with timer := { s.timer with
        remainingTime := s.timer.remainingTime - 1 } } := by
  have h2 : s.timer.remainingTime - 1 ≤ 0 := by omega
  simp [tick, ha, h2]

/-- saveState only touches the stored snapshot. -/
theorem saveState_proj (now : Int) (s : Sys) :
    (saveState now s).timer = s.timer ∧ (saveState now s).records = s.records ∧
    (saveState now s).notes = s.notes := by
  by_cases h : s.timer.state = TimerState.idle <;> simp [saveState, h]

/-- Running the countdown while more than one second remains only decrements
the clock: after `ts.length` callback firings starting from
`ts.length + 1` seconds, one second is left and nothing else has changed. -/
theorem ticks_run_aux (cfg : TimerConfig) (ts : List Int) :
    ∀ s : Sys, s.timer.state = TimerState.working →
      s.timer.intervalActive = true →
      s.timer.remainingTime = (ts.length : Int) + 1 →
      (ticks cfg ts s).timer.state = TimerState.working ∧
      (ticks cfg ts s).timer.intervalActive = true ∧
      (ticks cfg ts s).timer.remainingTime = 1 ∧
      (ticks cfg ts s).timer.completedPomodoros = s.timer.completedPomodoros ∧
      (ticks cfg ts s).timer.consecutivePomodoros = s.timer.consecutivePomodoros ∧
      (ticks cfg ts s).timer.startTime = s.timer.startTime ∧
      (ticks cfg ts s).records = s.records ∧
      (ticks cfg ts s).notes = s.notes := by
  induction ts with
  | nil =>
    intro s h1 h2 h3
    simp only [List.length_nil, Nat.cast_zero, zero_add] at h3
    exact ⟨h1, h2, by simpa [ticks] using h3, rfl, rfl, rfl, rfl, rfl⟩
  | cons t ts ih =>
    intro s h1 h2 h3
    have hlen : s.timer.remainingTime = (ts.length : Int) + 2 := by
      rw [h3]; push_cast [List.length_cons]; ring
    have hgt : 1 < s.timer.remainingTime := by omega
    have hts : ticks cfg (t :: ts) s = ticks cfg ts (tick cfg t s) := rfl
    rw [hts, tick_decrement_aux cfg t s h2 hgt]
    have hcall := ih
      (updateStatusBar t { s with timer := { s.timer with
        remainingTime := s.timer.remainingTime - 1 } })
      (by simp [updateStatusBar, saveState, h1])
      (by simp [updateStatusBar, saveState, h1, h2])
      (by simp [updateStatusBar, saveState, h1]; omega)
    refine ⟨hcall.1, hcall.2.1, hcall.2.2.1, ?_, ?_, ?_, ?_, ?_⟩
    · rw [hcall.2.2.2.1]; simp [updateStatusBar, saveState, h1]
    · rw [hcall.2.2.2.2.1]; simp [updateStatusBar, saveState, h1]
    · rw [hcall.2.2.2.2.2.1]; simp [updateStatusBar, saveState, h1]
    · rw [hcall.2.2.2.2.2.2.1]; simp [updateStatusBar, saveState, h1]
    · rw [hcall.2.2.2.2.2.2.2]; simp [updateStatusBar, saveState, h1]

/-! Concrete fixtures used by counterexamples and witnesses. -/

/-- Default configuration (all fallbacks of getConfig). -/
def cfgDefault : TimerConfig :=
  { workDuration := 25, shortBreakDuration := 5, longBreakDuration := 15
    longBreakInterval := 4, enableSound := true, enableNotification := true }

/-- Configuration with a one-minute work interval. -/
def cfgOneMin : TimerConfig :=
  { workDuration := 1, shortBreakDuration := 5, longBreakDuration := 15
    longBreakInterval := 4, enableSound := true, enableNotification := true }

/-- A freshly constructed system (constructor defaults, empty store). -/
def sysInit : Sys := { timer := {} }

/-- A system in the middle of a work interval. -/
def sysWorking : Sys :=
  { timer := { state := TimerState.working, remainingTime := 300, totalDuration := 1500
               intervalActive := true, completedPomodoros := 1, consecutivePomodoros := 1
               startTime := some 0 } }

/-- A system in the middle of a short break. -/
def sysShortBreak : Sys :=
  { timer := { state := TimerState.shortBreak, remainingTime := 100, totalDuration := 300
               intervalActive := true, completedPomodoros := 1, consecutivePomodoros := 1
               startTime := some 0 } }

/-- A work interval one second from completion with three consecutive
pomodoros already banked (the fourth completion triggers the long break). -/
def sysAlmostLong : Sys :=
  { timer := { state := TimerState.working, remainingTime := 1, totalDuration := 1500
               intervalActive := true, completedPomodoros := 3, consecutivePomodoros := 3
               startTime := some 0 } }

/-- A long break one second from completion. -/
def sysLongBreakEnd : Sys :=
  { timer := { state := TimerState.longBreak, remainingTime := 1, totalDuration := 900
               intervalActive := true, completedPomodoros := 4, consecutivePomodoros := 4
               startTime := some 0 } }

/-- Configuration surface with every duration explicitly set to 0. -/
def rawZero : RawSettings :=
  { workDuration := some 0, shortBreakDuration := some 0, longBreakDuration := some 0
    longBreakInterval := none, enableSound := none, enableNotification := none }

/-- A persisted mid-work snapshot. -/
def svWorking : TimerStateData :=
  { state := TimerState.working, remainingTime := 100, totalDuration := 1500
    completedPomodoros := 2, consecutivePomodoros := 2, timestamp := 0 }

/-- A persisted mid-break snapshot. -/
def svShortBreak : TimerStateData :=
  { state := TimerState.shortBreak, remainingTime := 40, totalDuration := 300
    completedPomodoros := 2, consecutivePomodoros := 2, timestamp := 0 }

/-- A persisted snapshot taken while paused. -/
def svPaused : TimerStateData :=
  { state := TimerState.paused, remainingTime := 60, totalDuration := 1500
    completedPomodoros := 1, consecutivePomodoros := 1, timestamp := 0 }

/-- Fresh process start with a mid-work snapshot in the store. -/
def sysSavedWorking : Sys := { timer := {}, savedState := some svWorking }

/-- Fresh process start with a paused snapshot in the store. -/
def sysSavedPaused : Sys := { timer := {}, savedState := some svPaused }

/-- Restoring a running snapshot with time still left resumes the countdown
in place: no record, no notification, counters exactly as stored. -/
theorem restore_resumes_aux (cfg : TimerConfig) (now : Int) (s : Sys) (sv : TimerStateData)
    (hsv : s.savedState = some sv)
    (hst : sv.state = TimerState.working ∨ sv.state = TimerState.shortBreak ∨
      sv.state = TimerState.longBreak)
    (hr : 0 < sv.remainingTime - Int.fdiv (now - sv.timestamp) 1000) :
    (restoreState cfg now s).timer.remainingTime =
      max 0 (sv.remainingTime - Int.fdiv (now - sv.timestamp) 1000) ∧
    (restoreState cfg now s).records = s.records ∧
    (restoreState cfg now s).notes = s.notes ∧
    (restoreState cfg now s).timer.state = sv.state ∧
    (restoreState cfg now s).timer.completedPomodoros = sv.completedPomodoros ∧
    (restoreState cfg now s).timer.consecutivePomodoros = sv.consecutivePomodoros ∧
    (restoreState cfg now s).timer.intervalActive = true := by
  have hstne : sv.state ≠ TimerState.idle := by
    rcases hst with h | h | h <;> simp [h]
  have hmax : max 0 (sv.remainingTime - Int.fdiv (now - sv.timestamp) 1000) =
      sv.remainingTime - Int.fdiv (now - sv.timestamp) 1000 := by omega
  simp [restoreState, hsv, hst, hmax, hr, startTimer, stopTimer, updateStatusBar,
    saveState, hstne]

/-- Restoring a running snapshot whose remaining time has fully elapsed is
exactly one application of the completion transition to the restored state. -/
theorem restore_completes_aux (cfg : TimerConfig) (now : Int) (s : Sys) (sv : TimerStateData)
    (hsv : s.savedState = some sv)
    (hst : sv.state = TimerState.working ∨ sv.state = TimerState.shortBreak ∨
      sv.state = TimerState.longBreak)
    (hr : sv.remainingTime - Int.fdiv (now - sv.timestamp) 1000 ≤ 0) :
    restoreState cfg now s = handleTimerEnd cfg now
      { s with timer := { s.timer with
          state := sv.state
          remainingTime := 0
          totalDuration := sv.totalDuration
          completedPomodoros := sv.completedPomodoros
          consecutivePomodoros := sv.consecutivePomodoros } } := by
  have hmax : max 0 (sv.remainingTime - Int.fdiv (now - sv.timestamp) 1000) = 0 := by omega
  simp [restoreState, hsv, hst, hmax, updateStatusBar_handleTimerEnd]

/-! Claim theorems. -/

/-- C1: restoring a persisted running snapshot (Working, ShortBreak or
LongBreak) sets remaining to max(0, stored remaining − ⌊(now − stored
timestamp)/1000⌋); if that is positive the countdown resumes in place with
no record appended, no counter change relative to the snapshot and no
notification fired; if the stored remaining minus the elapsed time is ≤ 0,
the restore is exactly one application of the completion transition
(handleTimerEnd, the very function a live countdown tick invokes at zero);
in particular a fully elapsed break is resolved directly to Idle with no
record and no replay. -/
theorem C1_restore_protocol (cfg : TimerConfig) (now : Int) (s : Sys) (sv : TimerStateData)
    (hsv : s.savedState = some sv)
    (hst : sv.state = TimerState.working ∨ sv.state = TimerState.shortBreak ∨
      sv.state = TimerState.longBreak) :
    (0 < sv.remainingTime - Int.fdiv (now - sv.timestamp) 1000 →
      (restoreState cfg now s).timer.remainingTime =
        max 0 (sv.remainingTime - Int.fdiv (now - sv.timestamp) 1000) ∧
      (restoreState cfg now s).records = s.records ∧
      (restoreState cfg now s).notes = s.notes ∧
      (restoreState cfg now s).timer.state = sv.state ∧
      (restoreState cfg now s).timer.completedPomodoros = sv.completedPomodoros ∧
      (restoreState cfg now s).timer.consecutivePomodoros = sv.consecutivePomodoros ∧
      (restoreState cfg now s).timer.intervalActive = true) ∧
    (sv.remainingTime - Int.fdiv (now - sv.timestamp) 1000 ≤ 0 →
      restoreState cfg now s = handleTimerEnd cfg now
        { s with timer := { s.timer with
            state := sv.state
            remainingTime := 0
            totalDuration := sv.totalDuration
            completedPomodoros := sv.completedPomodoros
            consecutivePomodoros := sv.consecutivePomodoros } }) ∧
    (sv.remainingTime - Int.fdiv (now - sv.timestamp) 1000 ≤ 0 →
      (sv.state = TimerState.shortBreak ∨ sv.state = TimerState.longBreak) →
      (restoreState cfg now s).timer.state = TimerState.idle ∧
      (restoreState cfg now s).records = s.records) := by
  refine ⟨fun hr => restore_resumes_aux cfg now s sv hsv hst hr,
    fun hr => restore_completes_aux cfg now s sv hsv hst hr, fun hr hbr => ?_⟩
  rw [restore_completes_aux cfg now s sv hsv hst hr]
  have h := handleTimerEnd_break_aux cfg now
    { s with timer := { s.timer with
        state := sv.state
        remainingTime := 0
        totalDuration := sv.totalDuration
        completedPomodoros := sv.completedPomodoros
        consecutivePomodoros := sv.consecutivePomodoros } } (by simpa using hbr)
  exact ⟨h.1, by simpa using h.2.1⟩

/-- C1, witness: a mid-work snapshot (100 s left, saved at time 0) restored
5 s later resumes with 95 s; restored 200 s later it fires exactly the
completion transition. -/
theorem C1_restore_protocol_witness :
    (restoreState cfgDefault 5000 sysSavedWorking).timer.remainingTime = 95 ∧
    restoreState cfgDefault 200000 sysSavedWorking = handleTimerEnd cfgDefault 200000
      { sysSavedWorking with timer := { sysSavedWorking.timer with
          state := svWorking.state
          remainingTime := 0
          totalDuration := svWorking.totalDuration
          completedPomodoros := svWorking.completedPomodoros
          consecutivePomodoros := svWorking.consecutivePomodoros } } := by
  constructor
  · have h := (C1_restore_protocol cfgDefault 5000 sysSavedWorking svWorking rfl
      (Or.inl rfl)).1 (by decide)
    rw [h.1]
    decide
  · exact (C1_restore_protocol cfgDefault 200000 sysSavedWorking svWorking rfl
      (Or.inl rfl)).2.1 (by decide)

/-- C3: the snapshot is never written while the state is Idle, so the
operations that return the machine to Idle — cancel(), or a break countdown
reaching 0 — leave the previously stored non-idle snapshot untouched, and a
later restoreState() re-enters that stale non-idle state (here: with time
still left on the stale snapshot, the restored state is the cancelled or
completed non-idle state, not Idle). -/
theorem C3_stale_snapshot (cfg : TimerConfig) (now1 now2 : Int) (s : Sys)
    (sv : TimerStateData)
    (hsv : s.savedState = some sv)
    (hst : sv.state = TimerState.working ∨ sv.state = TimerState.shortBreak ∨
      sv.state = TimerState.longBreak) :
    (s.timer.state = TimerState.idle → (saveState now1 s).savedState = s.savedState) ∧
    (cancel now1 s).savedState = some sv ∧
    ((s.timer.state = TimerState.shortBreak ∨ s.timer.state = TimerState.longBreak) →
      s.timer.intervalActive = true → s.timer.remainingTime ≤ 1 →
      (tick cfg now1 s).savedState = some sv) ∧
    (0 < sv.remainingTime - Int.fdiv (now2 - sv.timestamp) 1000 →
      (restoreState cfg now2 (cancel now1 s)).timer.state = sv.state ∧
      (restoreState cfg now2 (cancel now1 s)).timer.state ≠ TimerState.idle) := by
  have hcancel : (cancel now1 s).savedState = some sv := by
    by_cases hid : s.timer.state = TimerState.idle
    · simp [cancel, pushNote, hid, hsv]
    · by_cases hw : s.timer.state = TimerState.working <;>
        simp [cancel, stopTimer, resetTimer, updateStatusBar, saveState, pushNote,
          hid, hw, hsv]
  have hstne : sv.state ≠ TimerState.idle := by
    rcases hst with h | h | h <;> simp [h]
  refine ⟨fun hid => by simp [saveState, hid], hcancel, fun hbr ha hr => ?_, fun hr => ?_⟩
  · rw [tick_complete_aux cfg now1 s ha hr]
    have h := handleTimerEnd_break_aux cfg now1
      { s with timer := { s.timer with remainingTime := s.timer.remainingTime - 1 } }
      (by simpa using hbr)
    rw [h.2.2.1]
    simpa using hsv
  · have h := restore_resumes_aux cfg now2 (cancel now1 s) sv hcancel hst hr
    exact ⟨h.2.2.2.1, by rw [h.2.2.2.1]; exact hstne⟩

/-- C3, witness: cancelling a running short break leaves the stale mid-break
snapshot in the store, and restoring shortly afterwards re-enters ShortBreak. -/
theorem C3_stale_snapshot_witness :
    (cancel 100 { sysShortBreak with savedState := some svShortBreak }).savedState =
      some svShortBreak ∧
    (restoreState cfgDefault 2000
        (cancel 100 { sysShortBreak with savedState := some svShortBreak })).timer.state =
      TimerState.shortBreak := by
  have h := C3_stale_snapshot cfgDefault 100 2000
    { sysShortBreak with savedState := some svShortBreak } svShortBreak rfl
    (Or.inr (Or.inl rfl))
  exact ⟨h.2.1, (h.2.2.2 (by decide)).1⟩

/-- C7: the persisted snapshot determines the same stored value regardless of
the timer's pauseTime and previousState fields (they are simply not part of
TimerStateData); consequently, after restoring a Paused snapshot into a fresh
process (whose pauseTime is null), resume() changes nothing — it only emits
the pause-time-lost message — so a paused timer can never be resumed across a
process restart. -/
theorem C7_paused_not_resumable (cfg : TimerConfig) (now now2 : Int) (s : Sys)
    (sv : TimerStateData)
    (hsv : s.savedState = some sv)
    (hp : sv.state = TimerState.paused)
    (hpt : s.timer.pauseTime = none) :
    (∀ (σ : Sys) (t : PomodoroTimer) (pt : Option Int) (ps : TimerState) (n : Int),
      (saveState n { σ with timer := { t with pauseTime := pt, previousState := ps } }).savedState
        = (saveState n { σ with timer := t }).savedState) ∧
    (restoreState cfg now s).timer.state = TimerState.paused ∧
    (restoreState cfg now s).timer.pauseTime = none ∧
    (resume now2 (restoreState cfg now s)).timer = (restoreState cfg now s).timer ∧
    (resume now2 (restoreState cfg now s)).records = (restoreState cfg now s).records ∧
    (resume now2 (restoreState cfg now s)).savedState = (restoreState cfg now s).savedState ∧
    (resume now2 (restoreState cfg now s)).notes =
      (restoreState cfg now s).notes ++ [Note.info "无法继续，暂停时间信息丢失"] := by
  have hsnap : ∀ (σ : Sys) (t : PomodoroTimer) (pt : Option Int) (ps : TimerState) (n : Int),
      (saveState n { σ with timer := { t with pauseTime := pt, previousState := ps } }).savedState
        = (saveState n { σ with timer := t }).savedState := by
    intro σ t pt ps n
    by_cases h : t.state = TimerState.idle <;> simp [saveState, h]
  have hstate : (restoreState cfg now s).timer.state = TimerState.paused := by
    simp [restoreState, hsv, hp, updateStatusBar, saveState]
  have hpt2 : (restoreState cfg now s).timer.pauseTime = none := by
    simp [restoreState, hsv, hp, updateStatusBar, saveState, hpt]
  refine ⟨hsnap, hstate, hpt2, ?_, ?_, ?_, ?_⟩ <;>
    simp [resume, hstate, hpt2, jsFalsyTime, pushNote]

/-- C7, witness: a fresh process restoring a paused snapshot cannot resume. -/
theorem C7_paused_not_resumable_witness :
    (restoreState cfgDefault 5000 sysSavedPaused).timer.state = TimerState.paused ∧
    (resume 6000 (restoreState cfgDefault 5000 sysSavedPaused)).timer =
      (restoreState cfgDefault 5000 sysSavedPaused).timer := by
  have h := C7_paused_not_resumable cfgDefault 5000 6000 sysSavedPaused svPaused rfl rfl rfl
  exact ⟨h.2.1, h.2.2.2.1⟩

/-- C4, counterexample: the claim says consecutivePomodoroCount is reset to 0
whenever a long break starts.  Here the fourth work completion starts a long
break (the state was not longBreak before the tick and is longBreak after),
yet consecutivePomodoros is 4, not 0: startBreak never resets the counter;
the reset happens only when the long break finishes. -/
theorem C4_long_break_start_counterexample :
    sysAlmostLong.timer.state ≠ TimerState.longBreak ∧
    (tick cfgDefault 5 sysAlmostLong).timer.state = TimerState.longBreak ∧
    (tick cfgDefault 5 sysAlmostLong).timer.consecutivePomodoros = 4 := by
  decide

/-- C4, amended: consecutivePomodoroCount is reset to 0 when a long break's
countdown reaches 0 (long-break completion), and whenever a work interval is
cancelled before completion; it is not reset when the long break starts. -/
theorem C4_consecutive_reset_amended (cfg : TimerConfig) (t : Int) (s : Sys)
    (h1 : s.timer.state = TimerState.longBreak)
    (h2 : s.timer.intervalActive = true)
    (h3 : s.timer.remainingTime ≤ 1) :
    (tick cfg t s).timer.consecutivePomodoros = 0 ∧
    (∀ (t2 : Int) (s2 : Sys), s2.timer.state = TimerState.working →
      (cancel t2 s2).timer.consecutivePomodoros = 0) := by
  constructor
  · rw [tick_complete_aux cfg t s h2 h3]
    have h := handleTimerEnd_break_aux cfg t
      { s with timer := { s.timer with remainingTime := s.timer.remainingTime - 1 } }
      (Or.inr h1)
    simpa [h1] using h.2.2.2.1
  · intro t2 s2 hw
    simp [cancel, stopTimer, resetTimer, updateStatusBar, saveState, pushNote, hw]

/-- C4, witness for the amended theorem: finishing a long break resets the
consecutive count, and cancelling mid-work resets it. -/
theorem C4_consecutive_reset_amended_witness :
    (tick cfgDefault 9 sysLongBreakEnd).timer.consecutivePomodoros = 0 ∧
    (cancel 9 sysWorking).timer.consecutivePomodoros = 0 :=
  ⟨(C4_consecutive_reset_amended cfgDefault 9 sysLongBreakEnd rfl rfl (by decide)).1,
   (C4_consecutive_reset_amended cfgDefault 9 sysLongBreakEnd rfl rfl (by decide)).2
     9 sysWorking rfl⟩

/-- C5, counterexample: the claim says startWork() from any non-Idle state is
a no-op.  From ShortBreak, startWork() actually abandons the break and starts
a fresh work interval: the state changes to Working and the remaining time is
reset to the full work duration. -/
theorem C5_startWork_counterexample :
    sysShortBreak.timer.state = TimerState.shortBreak ∧
    (startWork cfgDefault 9 sysShortBreak).timer.state = TimerState.working ∧
    (startWork cfgDefault 9 sysShortBreak).timer.remainingTime = 1500 ∧
    sysShortBreak.timer.remainingTime = 100 := by
  decide

/-- C5, amended: only when the state is already Working is startWork() a
no-op with a user-visible message; from ShortBreak, LongBreak or Paused it
starts a fresh work interval exactly as from Idle. -/
theorem C5_startWork_amended (cfg : TimerConfig) (now : Int) (s : Sys) :
    (s.timer.state = TimerState.working →
      (startWork cfg now s).timer = s.timer ∧
      (startWork cfg now s).records = s.records ∧
      (startWork cfg now s).savedState = s.savedState ∧
      (startWork cfg now s).notes = s.notes ++ [Note.info "番茄时钟已经在工作中"]) ∧
    ((s.timer.state = TimerState.shortBreak ∨ s.timer.state = TimerState.longBreak ∨
        s.timer.state = TimerState.paused) →
      (startWork cfg now s).timer.state = TimerState.working ∧
      (startWork cfg now s).timer.remainingTime = ((cfg.workDuration * 60 : Nat) : Int) ∧
      (startWork cfg now s).timer.totalDuration = cfg.workDuration * 60 ∧
      (startWork cfg now s).timer.startTime = some now ∧
      (startWork cfg now s).timer.intervalActive = true ∧
      (startWork cfg now s).records = s.records) := by
  constructor
  · intro h
    simp [startWork, pushNote, h]
  · intro h
    have hne : s.timer.state ≠ TimerState.working := by
      rcases h with h | h | h <;> simp [h]
    simp [startWork, stopTimer, startTimer, updateStatusBar, saveState, pushNote, hne]

/-- C5, witness for the amended theorem. -/
theorem C5_startWork_amended_witness :
    (startWork cfgDefault 3 sysWorking).timer = sysWorking.timer ∧
    (startWork cfgDefault 9 sysShortBreak).timer.state = TimerState.working :=
  ⟨((C5_startWork_amended cfgDefault 3 sysWorking).1 rfl).1,
   ((C5_startWork_amended cfgDefault 9 sysShortBreak).2 (Or.inl rfl)).1⟩

/-- C2: a work interval of configured duration d > 0 minutes started from
Idle, once its countdown reaches 0 (after 60·d one-second ticks), increments
completedPomodoros and consecutivePomodoros by exactly one, appends exactly
one completed WorkIntervalRecord of duration d, fires the work-end
notification exactly once, and starts the countdown of the long break when
the incremented consecutive count has reached longBreakInterval, of the
short break otherwise. -/
theorem C2_work_completion (cfg : TimerConfig) (t0 tlast : Int) (ts : List Int) (s : Sys)
    (hidle : s.timer.state = TimerState.idle)
    (hd : 0 < cfg.workDuration)
    (hts : ts.length + 1 = cfg.workDuration * 60) :
    (tick cfg tlast (ticks cfg ts (startWork cfg t0 s))).timer.completedPomodoros =
      s.timer.completedPomodoros + 1 ∧
    (tick cfg tlast (ticks cfg ts (startWork cfg t0 s))).timer.consecutivePomodoros =
      s.timer.consecutivePomodoros + 1 ∧
    (tick cfg tlast (ticks cfg ts (startWork cfg t0 s))).records = s.records ++
      [{ startTime := some t0, endTime := tlast, duration := cfg.workDuration,
         completed := true }] ∧
    (∃ m, (tick cfg tlast (ticks cfg ts (startWork cfg t0 s))).notes = s.notes ++
      [Note.info s!"开始工作番茄 ({cfg.workDuration}分钟)", Note.workEnd, Note.info m]) ∧
    (tick cfg tlast (ticks cfg ts (startWork cfg t0 s))).timer.state =
      (if s.timer.consecutivePomodoros + 1 ≥ cfg.longBreakInterval then TimerState.longBreak
       else TimerState.shortBreak) ∧
    (tick cfg tlast (ticks cfg ts (startWork cfg t0 s))).timer.remainingTime =
      (if s.timer.consecutivePomodoros + 1 ≥ cfg.longBreakInterval then
        ((cfg.longBreakDuration * 60 : Nat) : Int)
       else ((cfg.shortBreakDuration * 60 : Nat) : Int)) ∧
    (tick cfg tlast (ticks cfg ts (startWork cfg t0 s))).timer.intervalActive = true := by
  have hne : s.timer.state ≠ TimerState.working := by simp [hidle]
  have h1 : (startWork cfg t0 s).timer.state = TimerState.working ∧
      (startWork cfg t0 s).timer.intervalActive = true ∧
      (startWork cfg t0 s).timer.remainingTime = ((cfg.workDuration * 60 : Nat) : Int) ∧
      (startWork cfg t0 s).timer.completedPomodoros = s.timer.completedPomodoros ∧
      (startWork cfg t0 s).timer.consecutivePomodoros = s.timer.consecutivePomodoros ∧
      (startWork cfg t0 s).timer.startTime = some t0 ∧
      (startWork cfg t0 s).records = s.records ∧
      (startWork cfg t0 s).notes = s.notes ++
        [Note.info s!"开始工作番茄 ({cfg.workDuration}分钟)"] := by
    simp [startWork, stopTimer, startTimer, updateStatusBar, saveState, pushNote, hne]
  obtain ⟨a1, a2, a3, a4, a5, a6, a7, a8⟩ := h1
  obtain ⟨b1, b2, b3, b4, b5, b6, b7, b8⟩ :=
    ticks_run_aux cfg ts (startWork cfg t0 s) a1 a2 (by rw [a3]; push_cast; omega)
  rw [tick_complete_aux cfg tlast _ b2 (by omega)]
  obtain ⟨c1, c2, c3, c4, c5, c6, c7, c8⟩ := handleTimerEnd_working_aux cfg tlast
    { ticks cfg ts (startWork cfg t0 s) with
      timer := { (ticks cfg ts (startWork cfg t0 s)).timer with
        remainingTime := (ticks cfg ts (startWork cfg t0 s)).timer.remainingTime - 1 } }
    (by simpa using b1)
  refine ⟨?_, ?_, ?_, ?_, ?_, ?_, ?_⟩
  · rw [c1]; simp [b4, a4]
  · rw [c2]; simp [b5, a5]
  · rw [c3]; simp [b6, a6, b7, a7]
  · obtain ⟨m, hm⟩ := c8
    exact ⟨m, by rw [hm]; simp [b8, a8]⟩
  · rw [c4]; simp [b5, a5]
  · rw [c5]; simp [b5, a5]
  · exact c6

/-- C2, witness: a one-minute work interval from a fresh system, 60 ticks in
total, completes into a short break with one completed record of duration 1. -/
theorem C2_work_completion_witness :
    (tick cfgOneMin 60 (ticks cfgOneMin (List.replicate 59 2)
        (startWork cfgOneMin 0 sysInit))).timer.completedPomodoros =
      sysInit.timer.completedPomodoros + 1 ∧
    (tick cfgOneMin 60 (ticks cfgOneMin (List.replicate 59 2)
        (startWork cfgOneMin 0 sysInit))).records = sysInit.records ++
      [{ startTime := some 0, endTime := 60, duration := cfgOneMin.workDuration,
         completed := true }] ∧
    (tick cfgOneMin 60 (ticks cfgOneMin (List.replicate 59 2)
        (startWork cfgOneMin 0 sysInit))).timer.state = TimerState.shortBreak := by
  have h := C2_work_completion cfgOneMin 0 60 (List.replicate 59 2) sysInit rfl
    (by decide) (by decide)
  refine ⟨h.1, h.2.2.1, ?_⟩
  rw [h.2.2.2.2.1]
  decide

/-- C6: cancelling while Working appends no WorkIntervalRecord, resets
consecutivePomodoros to 0, and fully resets the machine to Idle with
remaining = 0, totalDuration = 0 and startTime cleared. -/
theorem C6_cancel_working (now : Int) (s : Sys)
    (h : s.timer.state = TimerState.working) :
    (cancel now s).records = s.records ∧
    (cancel now s).timer.consecutivePomodoros = 0 ∧
    (cancel now s).timer.state = TimerState.idle ∧
    (cancel now s).timer.remainingTime = 0 ∧
    (cancel now s).timer.totalDuration = 0 ∧
    (cancel now s).timer.startTime = none := by
  simp [cancel, stopTimer, resetTimer, updateStatusBar, saveState, pushNote, h]

/-- C6, witness: cancelling the concrete mid-work system. -/
theorem C6_cancel_working_witness :
    (cancel 7 sysWorking).records = sysWorking.records ∧
    (cancel 7 sysWorking).timer.consecutivePomodoros = 0 ∧
    (cancel 7 sysWorking).timer.state = TimerState.idle ∧
    (cancel 7 sysWorking).timer.remainingTime = 0 ∧
    (cancel 7 sysWorking).timer.totalDuration = 0 ∧
    (cancel 7 sysWorking).timer.startTime = none :=
  C6_cancel_working 7 sysWorking rfl

/-- C8, counterexample: the claim says an interval whose configured duration
is 0 minutes completes on the first tick.  But getConfig reads the setting
with a JavaScript `|| 25` fallback, under which a configured 0 is falsy and
becomes the default 25 minutes: after startWork and one tick the timer is
still Working with 1499 seconds left, and nothing has completed. -/
theorem C8_zero_duration_counterexample :
    rawZero.workDuration = some 0 ∧
    (getConfig rawZero).workDuration = 25 ∧
    (tick (getConfig rawZero) 1 (startWork (getConfig rawZero) 0 sysInit)).timer.state =
      TimerState.working ∧
    (tick (getConfig rawZero) 1 (startWork (getConfig rawZero) 0 sysInit)).timer.remainingTime
      = 1499 ∧
    (tick (getConfig rawZero) 1 (startWork (getConfig rawZero) 0 sysInit)).records = [] := by
  decide

/-- C8, amended: when the effective TimerConfig work duration is 0 minutes
the started work interval does complete on the first countdown tick (the
completion transition fires, recording the interval and starting a break);
but a configured value of 0 read through getConfig is coerced to the default
25 by the `||` fallback, so a user-configured 0 runs for the default
duration instead. -/
theorem C8_zero_duration_amended (cfg : TimerConfig) (t0 t1 : Int) (s : Sys)
    (hd : cfg.workDuration = 0)
    (h : s.timer.state = TimerState.idle) :
    (tick cfg t1 (startWork cfg t0 s)).records = s.records ++
      [{ startTime := some t0, endTime := t1, duration := 0, completed := true }] ∧
    (tick cfg t1 (startWork cfg t0 s)).timer.completedPomodoros =
      s.timer.completedPomodoros + 1 ∧
    (tick cfg t1 (startWork cfg t0 s)).timer.state =
      (if s.timer.consecutivePomodoros + 1 ≥ cfg.longBreakInterval then TimerState.longBreak
       else TimerState.shortBreak) ∧
    (∀ raw : RawSettings, raw.workDuration = some 0 → (getConfig raw).workDuration = 25) := by
  have hne : s.timer.state ≠ TimerState.working := by simp [h]
  have hsw : ∀ x, startWork cfg t0 s = x → x.timer.state = TimerState.working ∧
      x.timer.remainingTime = 0 ∧ x.timer.intervalActive = true ∧
      x.timer.startTime = some t0 ∧ x.records = s.records ∧
      x.timer.completedPomodoros = s.timer.completedPomodoros ∧
      x.timer.consecutivePomodoros = s.timer.consecutivePomodoros := by
    intro x hx
    subst hx
    simp [startWork, stopTimer, startTimer, updateStatusBar, saveState, pushNote, hne, hd]
  obtain ⟨hw, hr, ha, hst, hrec, hcp, hcc⟩ := hsw (startWork cfg t0 s) rfl
  rw [tick_complete_aux cfg t1 (startWork cfg t0 s) ha (by omega)]
  have hend := handleTimerEnd_working_aux cfg t1
    { startWork cfg t0 s with timer := { (startWork cfg t0 s).timer with
        remainingTime := (startWork cfg t0 s).timer.remainingTime - 1 } } (by simpa using hw)
  refine ⟨?_, ?_, ?_, ?_⟩
  · rw [hend.2.2.1]
    simp [hrec, hst, hd]
  · rw [hend.1]
    simp [hcp]
  · rw [hend.2.2.2.1]
    simp [hcc]
  · intro raw hraw
    simp [getConfig, jsOrNum, hraw]

/-- C8, witness for the amended theorem: a TimerConfig whose work duration
field is 0 completes on the first tick, and getConfig coerces a stored 0. -/
theorem C8_zero_duration_amended_witness :
    (tick { cfgDefault with workDuration := 0 } 1
        (startWork { cfgDefault with workDuration := 0 } 0 sysInit)).timer.completedPomodoros
      = sysInit.timer.completedPomodoros + 1 ∧
    (getConfig rawZero).workDuration = 25 :=
  ⟨(C8_zero_duration_amended { cfgDefault with workDuration := 0 } 0 1 sysInit rfl rfl).2.1,
   (C8_zero_duration_amended { cfgDefault with workDuration := 0 } 0 1 sysInit rfl rfl).2.2.2
     rawZero rfl⟩

/-- A day with no completed records in its window has an empty filtered list. -/
theorem dayRecords_nil (ds : Int) (records : List PomodoroRecord)
    (h : ∀ r ∈ records, r.completed = true →
      ¬ (ds ≤ startMs r ∧ startMs r < ds + msPerDay)) :
    dayRecords ds records = [] := by
  rw [dayRecords, List.filter_eq_nil_iff]
  intro r hr
  by_cases hc : r.completed
  · have hw := h r hr hc
    simp only [Bool.and_eq_true, decide_eq_true_eq, hc, and_true, not_and]
    intro h1 h2
    exact hw ⟨h1, h2⟩
  · simp [hc]

/-- C9: for every record log the rolling 7-day aggregate has exactly 7
entries; entry j (0-based, oldest first) is precisely the daily aggregate —
the same count/sum that getTodayData computes — of the day starting 6−j days
before today, so the last entry is today's; and any day of the window with
no completed record in its [dayStart, dayStart+24h) interval yields a
zero-valued entry. -/
theorem C9_rolling_window (fmtDate : Int → String) (todayStart : Int)
    (records : List PomodoroRecord) :
    (getLast7DaysData fmtDate todayStart records).length = 7 ∧
    (∀ j (hj : j < (getLast7DaysData fmtDate todayStart records).length),
      ((getLast7DaysData fmtDate todayStart records).get ⟨j, hj⟩).completed =
        (getTodayData (todayStart - ((6 - j : Nat) : Int) * msPerDay)
          records).completedPomodoros ∧
      ((getLast7DaysData fmtDate todayStart records).get ⟨j, hj⟩).workTime =
        (getTodayData (todayStart - ((6 - j : Nat) : Int) * msPerDay)
          records).totalWorkTime) ∧
    (∀ j (hj : j < (getLast7DaysData fmtDate todayStart records).length),
      (∀ r ∈ records, r.completed = true →
        ¬ (todayStart - ((6 - j : Nat) : Int) * msPerDay ≤ startMs r ∧
          startMs r < todayStart - ((6 - j : Nat) : Int) * msPerDay + msPerDay)) →
      ((getLast7DaysData fmtDate todayStart records).get ⟨j, hj⟩).completed = 0 ∧
      ((getLast7DaysData fmtDate todayStart records).get ⟨j, hj⟩).workTime = 0) := by
  have hget : ∀ j (hj : j < (getLast7DaysData fmtDate todayStart records).length),
      (getLast7DaysData fmtDate todayStart records).get ⟨j, hj⟩ =
        { date := fmtDate (todayStart - ((6 - j : Nat) : Int) * msPerDay)
          completed := (dayRecords (todayStart - ((6 - j : Nat) : Int) * msPerDay)
            records).length
          workTime := List.foldl (fun total r => total + r.duration) 0
            (dayRecords (todayStart - ((6 - j : Nat) : Int) * msPerDay) records) } := by
    intro j hj
    simp [getLast7DaysData, List.get_eq_getElem, List.getElem_map]
  refine ⟨by simp [getLast7DaysData], fun j hj => ?_, fun j hj hz => ?_⟩
  · rw [hget j hj]
    simp [getTodayData]
  · rw [hget j hj,
      dayRecords_nil (todayStart - ((6 - j : Nat) : Int) * msPerDay) records hz]
    simp

/-- C9, witness: on the empty log the aggregate has 7 entries and its first
(oldest) entry is zero-valued. -/
theorem C9_rolling_window_witness :
    (getLast7DaysData (fun _ => "") 0 []).length = 7 ∧
    ((getLast7DaysData (fun _ => "") 0 []).get ⟨0, by decide⟩).completed = 0 ∧
    ((getLast7DaysData (fun _ => "") 0 []).get ⟨0, by decide⟩).workTime = 0 := by
  have h := C9_rolling_window (fun _ => "") 0 []
  have hz := h.2.2 0 (by decide) (by simp)
  exact ⟨h.1, hz.1, hz.2⟩

/-- Splitting at a newline that follows a newline-free fragment detaches
exactly that fragment. -/
theorem splitNL_append_nl (xs ys : List Char) (h : '\n' ∉ xs) :
    splitNL (xs ++ '\n' :: ys) = xs :: splitNL ys := by
  induction xs with
  | nil => simp [splitNL]
  | cons c xs ih =>
    have hc : ¬ c = '\n' := fun hc => h (hc ▸ List.mem_cons_self c xs)
    have hxs : '\n' ∉ xs := fun hm => h (List.mem_cons_of_mem c hm)
    simp [splitNL, hc, ih hxs]

/-- Accumulating the export rows onto any prefix concatenates their
characters after it. -/
theorem exportToCSV_foldl_data (fmt : Int → String) (records : List PomodoroRecord) :
    ∀ acc : String,
      (List.foldl (fun csv r => csv ++ csvRow fmt r) acc records).data =
        acc.data ++ (records.map fun r => (csvRowBody fmt r).data ++ ['\n']).flatten := by
  induction records with
  | nil => intro acc; simp
  | cons r rs ih =>
    intro acc
    simp only [List.foldl_cons, List.map_cons, List.flatten, ih, String.data_append]
    simp [csvRow, String.data_append]

/-- Splitting the concatenated newline-terminated rows yields one fragment
per row followed by one empty fragment after the final newline. -/
theorem splitNL_rows (fmt : Int → String) (rs : List PomodoroRecord)
    (h : ∀ r ∈ rs, '\n' ∉ (csvRowBody fmt r).data) :
    splitNL ((rs.map fun r => (csvRowBody fmt r).data ++ ['\n']).flatten) =
      (rs.map fun r => (csvRowBody fmt r).data) ++ [[]] := by
  induction rs with
  | nil => simp [splitNL]
  | cons r rs ih =>
    have hr : '\n' ∉ (csvRowBody fmt r).data := h r (List.mem_cons_self r rs)
    have hrs : ∀ x ∈ rs, '\n' ∉ (csvRowBody fmt x).data :=
      fun x hx => h x (List.mem_cons_of_mem r hx)
    simp only [List.map_cons, List.flatten_cons, List.append_assoc, List.singleton_append]
    rw [splitNL_append_nl _ _ hr, ih hrs]
    simp

/-- C10: splitting the exportDelimited output on newlines yields the header
fragment, then exactly one fragment per record of the log, then the single
empty fragment left after the terminating newline of the last row; so the
number of newline-terminated rows of the export is exactly
getIntervals().length + 1.  Hypothesis: the locale-formatted fields of a row
contain no newline (true of the host's toLocaleString and of decimal number
rendering). -/
theorem C10_export_row_count (fmt : Int → String) (records : List PomodoroRecord)
    (h : ∀ r ∈ records, '\n' ∉ (csvRowBody fmt r).data) :
    splitNL (exportToCSV fmt records).data =
      csvHeaderBody.data :: ((records.map fun r => (csvRowBody fmt r).data) ++ [[]]) ∧
    ((splitNL (exportToCSV fmt records).data).dropLast).length = records.length + 1 := by
  have hdata : (exportToCSV fmt records).data =
      csvHeaderBody.data ++ '\n' ::
        (records.map fun r => (csvRowBody fmt r).data ++ ['\n']).flatten := by
    rw [exportToCSV, exportToCSV_foldl_data]
    simp [String.data_append]
  have hheader : '\n' ∉ csvHeaderBody.data := by decide
  have hsplit : splitNL (exportToCSV fmt records).data =
      csvHeaderBody.data :: ((records.map fun r => (csvRowBody fmt r).data) ++ [[]]) := by
    rw [hdata, splitNL_append_nl _ _ hheader, splitNL_rows fmt records h]
  refine ⟨hsplit, ?_⟩
  rw [hsplit]
  simp [List.dropLast_concat]

/-- C10, witness: a one-record log exports to a header row plus one data row
(two newline-terminated rows). -/
theorem C10_export_row_count_witness :
    ((splitNL (exportToCSV (fun t => toString t)
        [{ startTime := some 0, endTime := 1, duration := 25, completed := true }]).data
      ).dropLast).length = 2 :=
  (C10_export_row_count (fun t => toString t)
    [{ startTime := some 0, endTime := 1, duration := 25, completed := true }]
    (by decide)).2

end Pomodoro
